import Mathlib

/-!
Shallow embedding of the AI Brain Vault backend (Python/FastAPI) for
specification checking.

The database table `ideas` is modelled as a `List IdeaRow`; each SQL
statement of `app/services/idea_service.py` and of the legacy monolith
`ai_brain_vault_service.py` is translated to an explicit list operation.
External collaborators (the spaCy parse, the xAI / OpenAI HTTP calls, the
Whisper transcription) are modelled as oracle parameters, so that every
code path that inspects their outcome is represented faithfully.
Timestamps and row ids are natural numbers; Python strings are Lean
strings (`len` equals `String.length`, i.e. the number of code points).
-/

/-- One row of the `ideas` table (column order as in the SELECT *
projections of `idea_service.py`). -/
structure IdeaRow where
  id : Nat
  content : String
  source : String
  timestamp : Nat
  user_id : String
  project : Option String := none
  theme : Option String := none
  emotion : Option String := none
  transformed_output : Option String := none
deriving DecidableEq, Repr

/-- Python truthiness of an optional string (`if value:`): `None` and the
empty string are falsy. -/
def optTruthy : Option String → Bool
  | none => false
  | some s => !(s == "")

/-- Lowercasing of Python `str.lower()`, modelled per character on the
code points. -/
def pyLowerData (s : String) : List Char := s.data.map Char.toLower

/-- Substring test on code-point lists; models Python `needle in hay`. -/
def containsSub (needle : List Char) : List Char → Bool
  | [] => needle.isEmpty
  | c :: rest => needle.isPrefixOf (c :: rest) || containsSub needle rest

/-- Models Python `needle in hay.lower()` for a lowercase literal
`needle`, as used by `cluster_project` and `_fallback_generation`. -/
def pyInLower (needle hay : String) : Bool :=
  containsSub needle.data (pyLowerData hay)

/-- The WHERE clause `id = $1 AND user_id = $2` shared by get / update /
delete in `idea_service.py`. -/
def ideaMatches (idea_id : Nat) (user_id : String) (r : IdeaRow) : Bool :=
  r.id == idea_id && r.user_id == user_id

/-- `IdeaService.get_idea_by_id`: `SELECT * FROM ideas WHERE id = $1 AND
user_id = $2` (the first matching row, `None` when there is none). -/
def get_idea_by_id (db : List IdeaRow) (idea_id : Nat) (user_id : String) :
    Option IdeaRow :=
  db.find? (ideaMatches idea_id user_id)

/-- Query parameters of `GET /ideas` (`IdeaSearchParams` in
`app/models/idea.py`); pydantic enforces `skip ≥ 0` (automatic for `Nat`)
and `1 ≤ limit ≤ 100`. -/
structure IdeaSearchParams where
  project : Option String := none
  theme : Option String := none
  emotion : Option String := none
  skip : Nat := 0
  limit : Nat := 10
deriving DecidableEq, Repr

/-- The pydantic `Field` bounds on `IdeaSearchParams.limit`. -/
def IdeaSearchParams.validLimit (p : IdeaSearchParams) : Prop :=
  1 ≤ p.limit ∧ p.limit ≤ 100

/-- The dynamically assembled filter of `IdeaService.get_user_ideas`:
`user_id = $1` plus one `AND column = $n` per filter that is present;
note `if params.project:` — a `None` or empty-string filter is skipped
(Python truthiness). -/
def rowMatchesFilters (uid : String) (p : IdeaSearchParams) (r : IdeaRow) :
    Bool :=
  r.user_id == uid
    && (match p.project with
        | none => true
        | some v => if v == "" then true else r.project == some v)
    && (match p.theme with
        | none => true
        | some v => if v == "" then true else r.theme == some v)
    && (match p.emotion with
        | none => true
        | some v => if v == "" then true else r.emotion == some v)

/-- `ORDER BY timestamp DESC` as a boolean comparison for `mergeSort`. -/
def tsDescLe (a b : IdeaRow) : Bool := b.timestamp ≤ a.timestamp

/-- Rows sorted newest-first, modelling `ORDER BY timestamp DESC`. -/
def sortByTimestampDesc (l : List IdeaRow) : List IdeaRow :=
  l.mergeSort tsDescLe

/-- `IdeaService.get_user_ideas`: filter, `ORDER BY timestamp DESC`,
then `OFFSET skip` and `LIMIT limit`. -/
def get_user_ideas (db : List IdeaRow) (uid : String)
    (p : IdeaSearchParams) : List IdeaRow :=
  (((sortByTimestampDesc (db.filter (rowMatchesFilters uid p))).drop
    p.skip).take p.limit)

/-- `IdeaService.search_ideas`: `WHERE user_id = $1 AND to_tsvector(...)
@@ plainto_tsquery(...) ORDER BY timestamp DESC`. The PostgreSQL
full-text match is modelled by the oracle `ftsMatch content query`. -/
def search_ideas (ftsMatch : String → String → Bool) (db : List IdeaRow)
    (uid : String) (q : String) : List IdeaRow :=
  sortByTimestampDesc
    (db.filter (fun r => r.user_id == uid && ftsMatch r.content q))

/-- The `IdeaUpdate` pydantic model: every field optional, `None` (which
pydantic also assigns to omitted fields) meaning "not supplied". -/
structure IdeaUpdate where
  content : Option String := none
  project : Option String := none
  theme : Option String := none
  emotion : Option String := none
  transformed_output : Option String := none
deriving DecidableEq, Repr

/-- `if not update_fields:` — no clause was added to the SET list. -/
def IdeaUpdate.isEmpty (u : IdeaUpdate) : Bool :=
  u.content == none && u.project == none && u.theme == none
    && u.emotion == none && u.transformed_output == none

/-- Effect of the assembled `UPDATE ideas SET ...` on one row: each field
for which `idea_data.field is not None` is overwritten, the rest are kept
(`IdeaService.update_idea`, lines 170-212). -/
def applyUpdate (u : IdeaUpdate) (r : IdeaRow) : IdeaRow :=
  { r with
    content := match u.content with | some v => v | none => r.content
    project := match u.project with | some v => some v | none => r.project
    theme := match u.theme with | some v => some v | none => r.theme
    emotion := match u.emotion with | some v => some v | none => r.emotion
    transformed_output :=
      match u.transformed_output with
      | some v => some v
      | none => r.transformed_output }

/-- `IdeaService.update_idea`: fetch the row (owner-scoped); `None` when
absent; with an empty SET list return the current row unchanged;
otherwise run `UPDATE ... WHERE id = $n AND user_id = $m` and re-read.
Returns the new table plus the value returned to the caller. -/
def update_idea (db : List IdeaRow) (idea_id : Nat) (uid : String)
    (u : IdeaUpdate) : List IdeaRow × Option IdeaRow :=
  match db.find? (ideaMatches idea_id uid) with
  | none => (db, none)
  | some _ =>
    if u.isEmpty then (db, get_idea_by_id db idea_id uid)
    else
      let db' := db.map (fun r =>
        if ideaMatches idea_id uid r then applyUpdate u r else r)
      (db', get_idea_by_id db' idea_id uid)

/-- `IdeaService.delete_idea`: `DELETE FROM ideas WHERE id = $1 AND
user_id = $2`; the boolean is `result == "DELETE 1"`, i.e. exactly one
row was removed. -/
def delete_idea (db : List IdeaRow) (idea_id : Nat) (uid : String) :
    List IdeaRow × Bool :=
  ((db.filter (fun r => !(ideaMatches idea_id uid r))),
    (db.filter (ideaMatches idea_id uid)).length == 1)

/-- The pydantic bounds on `IdeaBase.content`
(`min_length=1, max_length=10000` in `app/models/idea.py`). -/
def contentValid (c : String) : Bool :=
  1 ≤ c.length && c.length ≤ 10000

/-- The freshly inserted row of `INSERT INTO ideas (content, source,
timestamp, user_id)` with a server-assigned id: enrichment fields and
`transformed_output` start NULL. -/
def mkIdeaRow (nid : Nat) (content source : String) (ts : Nat)
    (uid : String) : IdeaRow :=
  ⟨nid, content, source, ts, uid, none, none, none, none⟩

/-- `POST /api/v1/ideas`: pydantic validation of `IdeaCreate` (a 422
`ValidationError` when the length bounds fail, before any SQL runs)
followed by `IdeaService.create_idea`'s INSERT. -/
def create_idea (db : List IdeaRow) (content source uid : String)
    (nid ts : Nat) : Except String (List IdeaRow × IdeaRow) :=
  if contentValid content then
    .ok (db ++ [mkIdeaRow nid content source ts uid],
      mkIdeaRow nid content source ts uid)
  else .error "ValidationError"

/-- `POST /ideas/` of the legacy monolith `ai_brain_vault_service.py`:
its `IdeaInput` model declares `content: str` with no length bounds, so
the INSERT always runs. -/
def vault_capture_idea (db : List IdeaRow) (content source uid : String)
    (nid ts : Nat) : List IdeaRow × IdeaRow :=
  (db ++ [mkIdeaRow nid content source ts uid],
    mkIdeaRow nid content source ts uid)

/-! ### Transformation Engine (`app/services/transform_service.py`) -/

/-- Prompt of `TransformService._generate_content` (the f-string verbatim,
including its indentation). -/
def promptContent (c : String) : String :=
  "\n        Transform this idea into engaging content:\n        \n        Original idea: "
    ++ c
    ++ "\n        \n        Please create compelling content that expands on this idea, making it more detailed and engaging for readers.\n        "

/-- Prompt of `TransformService._generate_ip_content`. -/
def promptIp (c : String) : String :=
  "\n        Transform this idea into intellectual property content:\n        \n        Original idea: "
    ++ c
    ++ "\n        \n        Please create detailed intellectual property content including:\n        - Patentable concepts\n        - Copyrightable material\n        - Trademark considerations\n        - Trade secret elements\n        "

/-- Prompt of `TransformService._generate_tasks`. -/
def promptTasks (c : String) : String :=
  "\n        Transform this idea into actionable tasks:\n        \n        Original idea: "
    ++ c
    ++ "\n        \n        Please break down this idea into specific, actionable tasks that can be executed to bring this idea to life.\n        Include timelines, priorities, and resource requirements.\n        "

/-- Fallback string of the `"content" in prompt.lower()` branch. -/
def fbContent : String :=
  "This is a generated content based on your idea. In a production environment, this would be enhanced by AI-powered content generation."

/-- Fallback string of the `"ip" in prompt.lower()` branch. -/
def fbIp : String :=
  "Intellectual Property Analysis:\n- Patent considerations\n- Copyright elements\n- Trademark opportunities\n- Trade secret aspects"

/-- Fallback string of the `"tasks" in prompt.lower()` branch. -/
def fbTasks : String :=
  "Actionable Tasks:\n1. Research and validate the idea\n2. Create a detailed plan\n3. Identify required resources\n4. Set milestones and timelines"

/-- Fallback string of the final `else` branch. -/
def fbOther : String :=
  "Transformed content based on your idea. AI enhancement would provide more detailed and contextual output."

/-- `TransformService._fallback_generation`: template selected by
substring tests against `prompt.lower()`, in the order content, ip,
tasks. -/
def fallback_generation (prompt : String) : String :=
  if pyInLower "content" prompt then fbContent
  else if pyInLower "ip" prompt then fbIp
  else if pyInLower "tasks" prompt then fbTasks
  else fbOther

/-- Configured API keys of `TransformService.__init__` (from settings;
`None` when the environment variable is unset). -/
structure AIConfig where
  xai_api_key : Option String := none
  openai_api_key : Option String := none
deriving DecidableEq, Repr

/-- Observable outcome of one provider HTTP call: a 200 response with the
generated text, or anything else (non-200 status or a raised
exception). -/
inductive APIOutcome where
  | success (text : String)
  | failure
deriving DecidableEq, Repr

/-- Common shape of `_call_xai_api` / `_call_openai_api`: return the
generated text on 200, otherwise fall back to `_fallback_generation`
(both the non-200 branch and the `except` handler do so). -/
def callProvider (oracle : String → APIOutcome) (prompt : String) : String :=
  match oracle prompt with
  | .success t => t
  | .failure => fallback_generation prompt

/-- `TransformService._call_ai_api`: first configured provider wins
(`if self.xai_api_key: ... elif self.openai_api_key: ... else` —
Python truthiness), local fallback when none is configured. -/
def call_ai_api (cfg : AIConfig) (oracleX oracleO : String → APIOutcome)
    (prompt : String) : String :=
  if optTruthy cfg.xai_api_key then callProvider oracleX prompt
  else if optTruthy cfg.openai_api_key then callProvider oracleO prompt
  else fallback_generation prompt

/-- `TransformRequest` (`app/models/transform.py`); `output_type` is kept
as a plain string here so that the service-level `ValueError` branch of
`transform_idea` is representable. -/
structure TransformRequest where
  idea_id : Nat
  output_type : String
  user_id : String
deriving DecidableEq, Repr

/-- `TransformResponse` (`app/models/transform.py`). -/
structure TransformResponse where
  transformed_content : String
  idea_id : Nat
  output_type : String
deriving DecidableEq, Repr

/-- The kind-specific prompt chosen by `transform_idea`'s dispatch. -/
def promptFor (output_type c : String) : String :=
  if output_type == "content" then promptContent c
  else if output_type == "ip" then promptIp c
  else promptTasks c

/-- `TransformService.transform_idea`: load the idea owner-scoped
(`ValueError "Idea not found"` when absent), dispatch on `output_type`
(`ValueError` for an unknown kind, before any provider call), generate,
persist via `update_idea` with only `transformed_output` set, and return
the `TransformResponse`. The returned list is the table after the call. -/
def transform_idea (cfg : AIConfig) (oracleX oracleO : String → APIOutcome)
    (db : List IdeaRow) (req : TransformRequest) :
    List IdeaRow × Except String TransformResponse :=
  match get_idea_by_id db req.idea_id req.user_id with
  | none => (db, .error "Idea not found")
  | some idea =>
    if req.output_type == "content" || req.output_type == "ip"
        || req.output_type == "tasks" then
      let t := call_ai_api cfg oracleX oracleO
        (promptFor req.output_type idea.content)
      let upd : IdeaUpdate := { transformed_output := some t }
      ((update_idea db req.idea_id req.user_id upd).1,
        .ok ⟨t, req.idea_id, req.output_type⟩)
    else
      (db, .error ("Unknown output type: " ++ req.output_type))

/-! ### Legacy monolith transform (`ai_brain_vault_service.py`) -/

/-- Observable outcome of the monolith's xAI call: a 200 response whose
JSON may or may not carry a `text` field, a non-200 response, or a raised
exception. -/
inductive VaultOutcome where
  | ok (text : Option String)
  | httpError
  | exn
deriving DecidableEq, Repr

/-- The monolith's `prompts` dict lookup `prompts.get(output_type,
prompts["content"])`: unknown kinds silently get the content prompt. -/
def vaultPrompt (content output_type : String) : String :=
  if output_type == "content" then
    "Generate a blog post based on this idea: " ++ content
  else if output_type == "ip" then
    "Create a patent-like summary for this concept: " ++ content
  else if output_type == "tasks" then
    "Convert this idea into actionable tasks: " ++ content
  else
    "Generate a blog post based on this idea: " ++ content

/-- `generate_transformation` of the monolith: fixed fallback string when
no key is configured; otherwise one xAI call whose non-200 / exception /
missing-text outcomes all yield the same fallback string. -/
def generate_transformation (xaiKey : Option String)
    (oracle : String → VaultOutcome) (content output_type : String) :
    String :=
  if !(optTruthy xaiKey) then "Generated " ++ output_type ++ " for: " ++ content
  else
    match oracle (vaultPrompt content output_type) with
    | .ok (some t) => t
    | .ok none => "Generated " ++ output_type ++ " for: " ++ content
    | .httpError => "Generated " ++ output_type ++ " for: " ++ content
    | .exn => "Generated " ++ output_type ++ " for: " ++ content

/-- `POST /transform/` of the monolith: owner-scoped existence check
(404 otherwise), `generate_transformation` for ANY `output_type` (its
pydantic model constrains it to `str` only), then `UPDATE ideas SET
transformed_output = $1 WHERE id = $2`. -/
def vault_transform (xaiKey : Option String)
    (oracle : String → VaultOutcome) (db : List IdeaRow)
    (req : TransformRequest) : List IdeaRow × Except String String :=
  match db.find? (ideaMatches req.idea_id req.user_id) with
  | none => (db, .error "Idea not found")
  | some idea =>
    let t := generate_transformation xaiKey oracle idea.content
      req.output_type
    (db.map (fun r =>
      if r.id == req.idea_id then { r with transformed_output := some t }
      else r),
      .ok t)

/-! ### Enrichment Pipeline (`process_idea_with_nlp` in the monolith) -/

/-- A named entity of the spaCy parse: surface text and entity label. -/
structure Ent where
  text : String
  label : String
deriving DecidableEq, Repr

/-- The label filter of the theme extraction: `ent.label_ in ['ORG',
'PRODUCT', 'GPE', 'PERSON']` (organization, product, place, person). -/
def entCategories : List String := ["ORG", "PRODUCT", "GPE", "PERSON"]

/-- `themes = [ent.text for ent in doc.ents if ent.label_ in [...]];
theme = themes[0] if themes else "general"`. -/
def themeOf (ents : List Ent) : String :=
  (((ents.filter (fun e => entCategories.contains e.label)).map
    Ent.text).headD "general")

/-- Observable outcome of the emotion-classification HTTP call: a 200
response whose JSON may lack the `emotion` key, a non-200 response, or a
raised exception. -/
inductive EmoOutcome where
  | ok (emotion : Option String)
  | httpError
  | exn
deriving DecidableEq, Repr

/-- `classify_emotion`: `"neutral"` when no key is configured; one xAI
call otherwise, with `result.get('emotion', 'neutral')` on 200 and
`"neutral"` on non-200 or exception. -/
def classify_emotion (xaiKey : Option String) (outcome : EmoOutcome) :
    String :=
  if !(optTruthy xaiKey) then "neutral"
  else
    match outcome with
    | .ok (some e) => e
    | .ok none => "neutral"
    | .httpError => "neutral"
    | .exn => "neutral"

/-- `cluster_project`: first-match keyword bucketing over
`text.lower()`, priority order Startup / Blog / Product, default
"Research Notes". -/
def cluster_project (text : String) : String :=
  if ["startup", "business", "company"].any (fun w => pyInLower w text) then
    "Startup Ideas"
  else if ["blog", "article", "write"].any (fun w => pyInLower w text) then
    "Blog Content"
  else if ["feature", "product", "app"].any (fun w => pyInLower w text) then
    "Product Features"
  else "Research Notes"

/-- The enrichment write `UPDATE ideas SET project = $1, theme = $2,
emotion = $3 WHERE id = $4` (keyed by id only). -/
def enrichUpdate (db : List IdeaRow) (idea_id : Nat)
    (proj theme emo : String) : List IdeaRow :=
  db.map (fun r =>
    if r.id == idea_id then
      { r with
        project := some proj
        theme := some theme
        emotion := some emo }
    else r)

/-- `process_idea_with_nlp`: theme from the spaCy entity scan (the parse
is the oracle `parse`), emotion from `classify_emotion`, project from
`cluster_project`, then the three-field UPDATE. -/
def process_idea_with_nlp (parse : String → List Ent)
    (xaiKey : Option String) (emo : EmoOutcome) (db : List IdeaRow)
    (idea_id : Nat) (content : String) : List IdeaRow :=
  enrichUpdate db idea_id (cluster_project content)
    (themeOf (parse content)) (classify_emotion xaiKey emo)

/-! ### Voice Intake (`voice_service.py`, `api/voice.py`) -/

/-- The fixed byte ceiling `10 * 1024 * 1024` of
`validate_audio_format`. -/
def maxAudioSize : Nat := 10 * 1024 * 1024

/-- The recognized container signatures: WAV (`RIFF`), MP3 (`ID3` or
`\xff\xfb`), OGG (`OggS`). -/
def audioSignatures : List (List Nat) :=
  [[0x52, 0x49, 0x46, 0x46],
   [0x49, 0x44, 0x33],
   [0xff, 0xfb],
   [0x4f, 0x67, 0x67, 0x53]]

/-- `VoiceService.validate_audio_format`: size ceiling first, then
`any(audio_data.startswith(sig) ...)`. The payload is the byte list. -/
def validate_audio_format (audio : List Nat) : Bool :=
  if audio.length > maxAudioSize then false
  else audioSignatures.any (fun sig => sig.isPrefixOf audio)

/-- `POST /api/v1/voice/transcribe`: content-type gate, then
`validate_audio_format`, and only then `process_voice_input` (which
performs the Whisper transcription, modelled by the oracle
`transcriber`). -/
def transcribe_route (transcriber : List Nat → Except String String)
    (contentType : String) (audio : List Nat) : Except String String :=
  if !(List.isPrefixOf "audio/".data contentType.data) then
    .error "File must be an audio file"
  else if !(validate_audio_format audio) then
    .error "Invalid audio format or file too large"
  else transcriber audio

/-! ### Helper lemmas -/

/-- The empty needle is a substring of everything (as in Python). -/
theorem containsSub_nil (l : List Char) : containsSub [] l = true := by
  induction l with
  | nil => rfl
  | cons c rest ih => simp [containsSub]

/-- A boolean prefix extends along a right append. -/
theorem isPrefixOf_append_right {n a : List Char} (b : List Char)
    (h : n.isPrefixOf a = true) : n.isPrefixOf (a ++ b) = true := by
  rw [List.isPrefixOf_iff_prefix] at h ⊢
  exact h.trans (List.prefix_append a b)

/-- A substring of `a` is a substring of `a ++ b`. -/
theorem containsSub_append_right {n a : List Char} (b : List Char)
    (h : containsSub n a = true) : containsSub n (a ++ b) = true := by
  induction a with
  | nil =>
    simp [containsSub] at h
    subst h
    exact containsSub_nil b
  | cons c rest ih =>
    simp only [containsSub, Bool.or_eq_true] at h
    rcases h with h | h
    · have : n.isPrefixOf ((c :: rest) ++ b) = true :=
        isPrefixOf_append_right b h
      simp only [List.cons_append, containsSub, Bool.or_eq_true]
      left
      simpa using this
    · simp only [List.cons_append, containsSub, Bool.or_eq_true]
      right
      exact ih h

/-- Mapping a per-element transformation relates the lists pointwise. -/
theorem forall₂_map_self {α : Type} (P : α → α → Prop) (f : α → α)
    (l : List α) (h : ∀ r, P r (f r)) : List.Forall₂ P l (l.map f) := by
  induction l with
  | nil => exact List.Forall₂.nil
  | cons hd tl ih => exact List.Forall₂.cons (h hd) ih

/-- `find?` commutes with a map that rewrites only matching rows and
preserves the predicate on them. -/
theorem find?_map_guard (l : List IdeaRow) (p : IdeaRow → Bool)
    (g : IdeaRow → IdeaRow) (hg : ∀ r, p r = true → p (g r) = true) :
    (l.map (fun r => if p r then g r else r)).find? p =
      (l.find? p).map (fun r => if p r then g r else r) := by
  induction l with
  | nil => rfl
  | cons hd tl ih =>
    by_cases h : p hd = true
    · rw [List.map_cons, if_pos h, List.find?_cons_of_pos _ (hg hd h),
        List.find?_cons_of_pos _ h, Option.map_some']
      rw [if_pos h]
    · have h' : p hd = false := by simpa using h
      rw [List.map_cons, if_neg (by simp [h']),
        List.find?_cons_of_neg _ (by simp [h']),
        List.find?_cons_of_neg _ (by simp [h']), ih]

/-- `applyUpdate` never rewrites the id or the owner, so the owner-scoped
WHERE clause is preserved. -/
theorem ideaMatches_applyUpdate (i : Nat) (uid : String) (u : IdeaUpdate)
    (r : IdeaRow) : ideaMatches i uid (applyUpdate u r) = ideaMatches i uid r := by
  simp [ideaMatches, applyUpdate]

/-- `tsDescLe` is transitive. -/
theorem tsDescLe_trans (a b c : IdeaRow) (h1 : tsDescLe a b = true)
    (h2 : tsDescLe b c = true) : tsDescLe a c = true := by
  simp only [tsDescLe, decide_eq_true_eq] at h1 h2 ⊢
  omega

/-- `tsDescLe` is total. -/
theorem tsDescLe_total (a b : IdeaRow) :
    (tsDescLe a b || tsDescLe b a) = true := by
  simp only [tsDescLe, Bool.or_eq_true, decide_eq_true_eq]
  omega

/-- The sorted rows are pairwise newest-first. -/
theorem pairwise_sortByTimestampDesc (l : List IdeaRow) :
    List.Pairwise (fun a b => b.timestamp ≤ a.timestamp)
      (sortByTimestampDesc l) := by
  have h := List.sorted_mergeSort tsDescLe_trans tsDescLe_total l
  exact h.imp (fun hab => by simpa [tsDescLe] using hab)

/-- Membership in the sorted list is membership in the input. -/
theorem mem_sortByTimestampDesc {r : IdeaRow} {l : List IdeaRow} :
    r ∈ sortByTimestampDesc l ↔ r ∈ l :=
  (List.mergeSort_perm l tsDescLe).mem_iff

/-- Every row returned by `get_user_ideas` belongs to the table, is
owned by the caller and passes every supplied filter. -/
theorem mem_get_user_ideas {db : List IdeaRow} {uid : String}
    {p : IdeaSearchParams} {r : IdeaRow} (h : r ∈ get_user_ideas db uid p) :
    r ∈ db ∧ rowMatchesFilters uid p r = true ∧ r.user_id = uid := by
  have h1 : r ∈ sortByTimestampDesc (db.filter (rowMatchesFilters uid p)) :=
    ((List.take_sublist _ _).trans (List.drop_sublist _ _)).mem h
  have h2 : r ∈ db.filter (rowMatchesFilters uid p) :=
    mem_sortByTimestampDesc.mp h1
  obtain ⟨hmem, hf⟩ := List.mem_filter.mp h2
  refine ⟨hmem, hf, ?_⟩
  have := hf
  simp only [rowMatchesFilters, Bool.and_eq_true, beq_iff_eq] at this
  exact this.1.1.1

/-- Every row returned by `search_ideas` belongs to the table and is
owned by the caller. -/
theorem mem_search_ideas {m : String → String → Bool} {db : List IdeaRow}
    {uid q : String} {r : IdeaRow} (h : r ∈ search_ideas m db uid q) :
    r ∈ db ∧ r.user_id = uid := by
  have h2 : r ∈ db.filter (fun s => s.user_id == uid && m s.content q) :=
    mem_sortByTimestampDesc.mp h
  obtain ⟨hmem, hf⟩ := List.mem_filter.mp h2
  simp only [Bool.and_eq_true, beq_iff_eq] at hf
  exact ⟨hmem, hf.1⟩

/-! ### Claims -/

/-- Claim C2 (counterexample): the legacy monolith's capture endpoint
accepts content of length 0 — its `IdeaInput` model has no length
bounds — and inserts a row, so "fails with a ValidationError, with no row
inserted, for content of length 0" is false for that create path. -/
theorem vault_create_accepts_empty_content :
    vault_capture_idea [] "" "manual" "user_123" 1 0 =
      ([mkIdeaRow 1 "" "manual" 0 "user_123"],
        mkIdeaRow 1 "" "manual" 0 "user_123") ∧
    ("" : String).length = 0 := ⟨rfl, rfl⟩

/-- Claim C2 (amended): the modular Idea Store create (pydantic
`IdeaCreate` with `min_length=1, max_length=10000`, then the INSERT)
succeeds for every content of length 1 through 10,000 and fails with a
`ValidationError` — no row inserted — for length 0 or ≥ 10,001; the
legacy monolith capture endpoint performs no length validation and
always inserts. -/
theorem create_idea_length_validation (db : List IdeaRow)
    (content source uid : String) (nid ts : Nat) :
    (1 ≤ content.length → content.length ≤ 10000 →
      create_idea db content source uid nid ts =
        .ok (db ++ [mkIdeaRow nid content source ts uid],
          mkIdeaRow nid content source ts uid)) ∧
    (content.length = 0 ∨ 10001 ≤ content.length →
      create_idea db content source uid nid ts = .error "ValidationError") ∧
    vault_capture_idea db content source uid nid ts =
      (db ++ [mkIdeaRow nid content source ts uid],
        mkIdeaRow nid content source ts uid) := by
  refine ⟨fun h1 h2 => ?_, fun h => ?_, rfl⟩
  · have hv : contentValid content = true := by
      simp only [contentValid, Bool.and_eq_true, decide_eq_true_eq]
      omega
    simp [create_idea, hv]
  · have hv : contentValid content = false := by
      simp only [contentValid, Bool.and_eq_false_iff, decide_eq_false_iff_not]
      omega
    simp [create_idea, hv]

/-- Claim C2 (witness): a length-1 create succeeds with the row
appended. -/
theorem create_idea_length_validation_witness :
    create_idea [] "a" "manual" "user_a" 1 0 =
      .ok ([mkIdeaRow 1 "a" "manual" 0 "user_a"],
        mkIdeaRow 1 "a" "manual" 0 "user_a") :=
  (create_idea_length_validation [] "a" "manual" "user_a" 1 0).1
    (by decide) (by decide)

/-- Claim C10: in `update_idea` a `None` field of the partial — pydantic
assigns `None` both to omitted fields and to explicit nulls, so the two
are indistinguishable to the service — leaves that stored column
untouched on every row, and a non-null enrichment / transformation
column is never reset to null by any update. -/
theorem update_null_fields_untouched (db : List IdeaRow) (idea_id : Nat)
    (uid : String) (u : IdeaUpdate) :
    List.Forall₂ (fun a b =>
      (u.content = none → b.content = a.content) ∧
      (u.project = none → b.project = a.project) ∧
      (u.theme = none → b.theme = a.theme) ∧
      (u.emotion = none → b.emotion = a.emotion) ∧
      (u.transformed_output = none →
        b.transformed_output = a.transformed_output) ∧
      (a.project.isSome → b.project.isSome) ∧
      (a.theme.isSome → b.theme.isSome) ∧
      (a.emotion.isSome → b.emotion.isSome) ∧
      (a.transformed_output.isSome → b.transformed_output.isSome))
      db (update_idea db idea_id uid u).1 := by
  have hrefl : ∀ r : IdeaRow,
      (u.content = none → r.content = r.content) ∧
      (u.project = none → r.project = r.project) ∧
      (u.theme = none → r.theme = r.theme) ∧
      (u.emotion = none → r.emotion = r.emotion) ∧
      (u.transformed_output = none →
        r.transformed_output = r.transformed_output) ∧
      (r.project.isSome → r.project.isSome) ∧
      (r.theme.isSome → r.theme.isSome) ∧
      (r.emotion.isSome → r.emotion.isSome) ∧
      (r.transformed_output.isSome → r.transformed_output.isSome) := by
    intro r
    refine ⟨fun _ => rfl, fun _ => rfl, fun _ => rfl, fun _ => rfl,
      fun _ => rfl, id, id, id, id⟩
  unfold update_idea
  cases hfind : db.find? (ideaMatches idea_id uid) with
  | none =>
    exact List.forall₂_same.mpr (fun r _ => hrefl r)
  | some row =>
    by_cases hemp : u.isEmpty = true
    · simp only [hemp, if_true]
      exact List.forall₂_same.mpr (fun r _ => hrefl r)
    · simp only [hemp, if_false, Bool.false_eq_true]
      refine forall₂_map_self _ _ _ (fun r => ?_)
      by_cases hm : ideaMatches idea_id uid r = true
      · rw [if_pos hm]
        unfold applyUpdate
        refine ⟨fun hc => by simp [hc], fun hc => by simp [hc],
          fun hc => by simp [hc], fun hc => by simp [hc],
          fun hc => by simp [hc], ?_, ?_, ?_, ?_⟩
        · cases hp : u.project <;> simp [hp]
        · cases hp : u.theme <;> simp [hp]
        · cases hp : u.emotion <;> simp [hp]
        · cases hp : u.transformed_output <;> simp [hp]
      · rw [if_neg hm]
        exact hrefl r

/-- Claim C10 (witness): a concrete all-`None` update on a one-row
table. -/
theorem update_null_fields_untouched_witness :
    List.Forall₂ (fun a b : IdeaRow =>
      ((({} : IdeaUpdate)).content = none → b.content = a.content) ∧
      ((({} : IdeaUpdate)).project = none → b.project = a.project) ∧
      ((({} : IdeaUpdate)).theme = none → b.theme = a.theme) ∧
      ((({} : IdeaUpdate)).emotion = none → b.emotion = a.emotion) ∧
      ((({} : IdeaUpdate)).transformed_output = none →
        b.transformed_output = a.transformed_output) ∧
      (a.project.isSome → b.project.isSome) ∧
      (a.theme.isSome → b.theme.isSome) ∧
      (a.emotion.isSome → b.emotion.isSome) ∧
      (a.transformed_output.isSome → b.transformed_output.isSome))
      [mkIdeaRow 1 "keep me" "manual" 0 "user_a"]
      (update_idea [mkIdeaRow 1 "keep me" "manual" 0 "user_a"] 1 "user_a"
        {}).1 :=
  update_null_fields_untouched [mkIdeaRow 1 "keep me" "manual" 0 "user_a"]
    1 "user_a" {}

/-- Claim C1: with distinct row ids, an idea owned by A is invisible to
and unaffected by every owner-scoped operation invoked by B ≠ A, and
each such call returns exactly the value it returns for an id `j` that
is absent from the table: `None` for get and update, `False` for delete,
omission from list and search results — never a distinct forbidden
signal. -/
theorem cross_owner_indistinguishable (db : List IdeaRow) (A B : String)
    (i j : Nat) (r : IdeaRow) (m : String → String → Bool) (q : String)
    (p : IdeaSearchParams) (u : IdeaUpdate)
    (huniq : (db.map IdeaRow.id).Nodup) (hr : r ∈ db) (hri : r.id = i)
    (hrA : r.user_id = A) (hAB : A ≠ B) (hj : ∀ s ∈ db, s.id ≠ j) :
    get_idea_by_id db i B = none ∧
    get_idea_by_id db j B = none ∧
    r ∉ get_user_ideas db B p ∧
    r ∉ search_ideas m db B q ∧
    update_idea db i B u = (db, none) ∧
    update_idea db j B u = (db, none) ∧
    delete_idea db i B = (db, false) ∧
    delete_idea db j B = (db, false) := by
  have hmi : ∀ s ∈ db, ideaMatches i B s = false := by
    intro s hs
    by_contra hcon
    have htrue : ideaMatches i B s = true := by
      cases h : ideaMatches i B s
      · exact absurd h hcon
      · rfl
    simp only [ideaMatches, Bool.and_eq_true, beq_iff_eq] at htrue
    have hsr : s = r :=
      List.inj_on_of_nodup_map huniq hs hr (by rw [htrue.1, hri])
    exact hAB (by rw [← hrA, ← hsr, htrue.2])
  have hmj : ∀ s ∈ db, ideaMatches j B s = false := by
    intro s hs
    simp only [ideaMatches, Bool.and_eq_false_iff, beq_eq_false_iff_ne]
    exact Or.inl (hj s hs)
  have hfi : db.find? (ideaMatches i B) = none :=
    List.find?_eq_none.mpr (fun s hs => by simp [hmi s hs])
  have hfj : db.find? (ideaMatches j B) = none :=
    List.find?_eq_none.mpr (fun s hs => by simp [hmj s hs])
  have hdel : ∀ k : Nat, (∀ s ∈ db, ideaMatches k B s = false) →
      delete_idea db k B = (db, false) := by
    intro k hk
    unfold delete_idea
    have h1 : db.filter (fun s => !(ideaMatches k B s)) = db :=
      List.filter_eq_self.mpr (fun s hs => by simp [hk s hs])
    have h2 : db.filter (ideaMatches k B) = [] :=
      List.filter_eq_nil_iff.mpr (fun s hs => by simp [hk s hs])
    rw [h1, h2]
    rfl
  refine ⟨hfi, hfj, ?_, ?_, ?_, ?_, hdel i hmi, hdel j hmj⟩
  · intro hmem
    have := (mem_get_user_ideas hmem).2.2
    exact hAB (by rw [← hrA, this])
  · intro hmem
    have := (mem_search_ideas hmem).2
    exact hAB (by rw [← hrA, this])
  · unfold update_idea
    rw [hfi]
  · unfold update_idea
    rw [hfj]

/-- Claim C1 (witness): a one-row table owned by alice, queried by
bob. -/
theorem cross_owner_indistinguishable_witness :
    get_idea_by_id [mkIdeaRow 1 "private" "manual" 0 "alice"] 1 "bob" =
      none ∧
    mkIdeaRow 1 "private" "manual" 0 "alice" ∉
      get_user_ideas [mkIdeaRow 1 "private" "manual" 0 "alice"] "bob" {} ∧
    update_idea [mkIdeaRow 1 "private" "manual" 0 "alice"] 1 "bob" {} =
      ([mkIdeaRow 1 "private" "manual" 0 "alice"], none) ∧
    delete_idea [mkIdeaRow 1 "private" "manual" 0 "alice"] 1 "bob" =
      ([mkIdeaRow 1 "private" "manual" 0 "alice"], false) := by
  have h := cross_owner_indistinguishable
    [mkIdeaRow 1 "private" "manual" 0 "alice"] "alice" "bob" 1 2
    (mkIdeaRow 1 "private" "manual" 0 "alice") (fun _ _ => true) "" {} {}
    (by decide) (by decide) (by decide) (by decide) (by decide)
    (by decide)
  exact ⟨h.1, h.2.2.1, h.2.2.2.2.1, h.2.2.2.2.2.2.1⟩

/-- Claim C8: `get_user_ideas` returns only rows owned by the caller
that pass every supplied filter, newest-first by timestamp, computed as
`OFFSET skip` then `LIMIT limit` over the sorted filtered rows; its
length is `min limit (matching - skip)` (so at most `limit ≤ 100`), and
with `skip = 0` every returned row is at least as new as every matching
row that was cut off by the limit — in particular `limit = 10` against
25 matching rows returns exactly the 10 newest. -/
theorem list_ideas_spec (db : List IdeaRow) (uid : String)
    (p : IdeaSearchParams) (hlim : p.validLimit) :
    get_user_ideas db uid p =
      ((sortByTimestampDesc (db.filter (rowMatchesFilters uid p))).drop
        p.skip).take p.limit ∧
    (∀ r ∈ get_user_ideas db uid p,
      r.user_id = uid ∧ rowMatchesFilters uid p r = true) ∧
    List.Pairwise (fun a b => b.timestamp ≤ a.timestamp)
      (get_user_ideas db uid p) ∧
    (get_user_ideas db uid p).length =
      min p.limit ((db.filter (rowMatchesFilters uid p)).length - p.skip) ∧
    (get_user_ideas db uid p).length ≤ 100 ∧
    (p.skip = 0 → ∀ x ∈ get_user_ideas db uid p,
      ∀ y ∈ (sortByTimestampDesc (db.filter (rowMatchesFilters uid p))).drop
        p.limit, y.timestamp ≤ x.timestamp) := by
  have hsorted : List.Pairwise (fun a b => b.timestamp ≤ a.timestamp)
      (sortByTimestampDesc (db.filter (rowMatchesFilters uid p))) :=
    pairwise_sortByTimestampDesc _
  have hlen : (get_user_ideas db uid p).length =
      min p.limit ((db.filter (rowMatchesFilters uid p)).length - p.skip) := by
    unfold get_user_ideas sortByTimestampDesc
    rw [List.length_take, List.length_drop,
      (List.mergeSort_perm (db.filter (rowMatchesFilters uid p))
        tsDescLe).length_eq]
  refine ⟨rfl, ?_, ?_, hlen, ?_, ?_⟩
  · intro r hr
    obtain ⟨_, hf, huid⟩ := mem_get_user_ideas hr
    exact ⟨huid, hf⟩
  · exact hsorted.sublist
      ((List.take_sublist _ _).trans (List.drop_sublist _ _))
  · calc (get_user_ideas db uid p).length
        = min p.limit _ := hlen
      _ ≤ p.limit := min_le_left _ _
      _ ≤ 100 := hlim.2
  · intro hskip x hx y hy
    set L := sortByTimestampDesc (db.filter (rowMatchesFilters uid p))
      with hL
    have hx' : x ∈ L.take p.limit := by
      have : get_user_ideas db uid p = L.take p.limit := by
        unfold get_user_ideas
        rw [← hL, hskip]
        rfl
      rwa [this] at hx
    have hsplit : List.Pairwise (fun a b => b.timestamp ≤ a.timestamp)
        (L.take p.limit ++ L.drop p.limit) := by
      rw [List.take_append_drop]
      exact hsorted
    exact ((List.pairwise_append.mp hsplit).2.2) x hx' y hy

/-- Claim C8 (witness): 25 one-owner rows with ascending timestamps,
`limit = 10`, `skip = 0`: the result length is `min 10 25 = 10`. -/
theorem list_ideas_spec_witness :
    (get_user_ideas
      ((List.range 25).map (fun k => mkIdeaRow k "c" "manual" k "u"))
      "u" {}).length =
      min (10 : Nat)
        ((((List.range 25).map
          (fun k => mkIdeaRow k "c" "manual" k "u")).filter
            (rowMatchesFilters "u" {})).length - 0) :=
  (list_ideas_spec
    ((List.range 25).map (fun k => mkIdeaRow k "c" "manual" k "u"))
    "u" {} ⟨by decide, by decide⟩).2.2.2.1

/-- Fields an enrichment write must not touch: everything except
`project`, `theme`, `emotion`. -/
def enrichFrame (a b : IdeaRow) : Prop :=
  a.id = b.id ∧ a.content = b.content ∧ a.source = b.source ∧
  a.timestamp = b.timestamp ∧ a.user_id = b.user_id ∧
  a.transformed_output = b.transformed_output

/-- Fields a transformation write must not touch: everything except
`transformed_output`. -/
def transformFrame (a b : IdeaRow) : Prop :=
  a.id = b.id ∧ a.content = b.content ∧ a.source = b.source ∧
  a.timestamp = b.timestamp ∧ a.user_id = b.user_id ∧
  a.project = b.project ∧ a.theme = b.theme ∧ a.emotion = b.emotion

/-- `enrichFrame` is reflexive. -/
theorem enrichFrame_refl (r : IdeaRow) : enrichFrame r r :=
  ⟨rfl, rfl, rfl, rfl, rfl, rfl⟩

/-- `transformFrame` is reflexive. -/
theorem transformFrame_refl (r : IdeaRow) : transformFrame r r :=
  ⟨rfl, rfl, rfl, rfl, rfl, rfl, rfl, rfl⟩

/-- An `update_idea` that only carries `transformed_output` respects the
transformation frame on every row. -/
theorem update_idea_transformFrame (db : List IdeaRow) (idea_id : Nat)
    (uid t : String) :
    List.Forall₂ transformFrame db
      (update_idea db idea_id uid { transformed_output := some t }).1 := by
  unfold update_idea
  cases hfind : db.find? (ideaMatches idea_id uid) with
  | none => exact List.forall₂_same.mpr (fun r _ => transformFrame_refl r)
  | some row =>
    have hne : IdeaUpdate.isEmpty { transformed_output := some t } = false := by
      rfl
    rw [hne]
    simp only [Bool.false_eq_true, if_false]
    refine forall₂_map_self _ _ _ (fun r => ?_)
    by_cases hm : ideaMatches idea_id uid r = true
    · rw [if_pos hm]
      exact ⟨rfl, rfl, rfl, rfl, rfl, rfl, rfl, rfl⟩
    · rw [if_neg hm]
      exact transformFrame_refl r

/-- Claim C4: the enrichment write touches only `project`, `theme`,
`emotion`; the modular transform and the legacy monolith transform touch
only `transformed_output`; none of them ever changes `content`,
`source`, `timestamp` or `user_id` of any row. -/
theorem enrichment_transform_frame (parse : String → List Ent)
    (xaiKey vKey : Option String) (emo : EmoOutcome) (db : List IdeaRow)
    (idea_id : Nat) (content : String) (cfg : AIConfig)
    (oracleX oracleO : String → APIOutcome)
    (vOracle : String → VaultOutcome) (req : TransformRequest) :
    List.Forall₂ enrichFrame db
      (process_idea_with_nlp parse xaiKey emo db idea_id content) ∧
    List.Forall₂ transformFrame db
      (transform_idea cfg oracleX oracleO db req).1 ∧
    List.Forall₂ transformFrame db (vault_transform vKey vOracle db req).1 := by
  refine ⟨?_, ?_, ?_⟩
  · unfold process_idea_with_nlp enrichUpdate
    refine forall₂_map_self _ _ _ (fun r => ?_)
    by_cases hm : (r.id == idea_id) = true
    · rw [if_pos hm]
      exact ⟨rfl, rfl, rfl, rfl, rfl, rfl⟩
    · rw [if_neg hm]
      exact enrichFrame_refl r
  · unfold transform_idea
    split
    · exact List.forall₂_same.mpr (fun r _ => transformFrame_refl r)
    · split
      · exact update_idea_transformFrame db req.idea_id req.user_id _
      · exact List.forall₂_same.mpr (fun r _ => transformFrame_refl r)
  · unfold vault_transform
    cases hfind : db.find? (ideaMatches req.idea_id req.user_id) with
    | none => exact List.forall₂_same.mpr (fun r _ => transformFrame_refl r)
    | some idea =>
      refine forall₂_map_self _ _ _ (fun r => ?_)
      by_cases hm : (r.id == req.idea_id) = true
      · rw [if_pos hm]
        exact ⟨rfl, rfl, rfl, rfl, rfl, rfl, rfl, rfl⟩
      · rw [if_neg hm]
        exact transformFrame_refl r

/-- Claim C6: enrichment is deterministic given the parse — `theme` is
the first entity (document order) labelled ORG / PRODUCT / GPE / PERSON,
else "general"; `emotion` is "neutral" whenever no classifier key is
configured or the call fails; `project` is first-match keyword bucketing
in the fixed order Startup / Blog / Product with default "Research
Notes"; and on the content "We should build a startup around solar
panels" with no entities and no classifier the stored row gets project
"Startup Ideas", theme "general", emotion "neutral". -/
theorem enrichment_heuristics (ents l₁ l₂ : List Ent) (e : Ent)
    (key : Option String) (outcome anyOutcome : EmoOutcome)
    (c cBlog : String)
    (hno : ∀ x ∈ ents, entCategories.contains x.label = false)
    (hfirst : ∀ x ∈ l₁, entCategories.contains x.label = false)
    (he : entCategories.contains e.label = true)
    (hkey : optTruthy key = false ∨ outcome = .httpError ∨ outcome = .exn)
    (hstartup : (["startup", "business", "company"].any
      (fun w => pyInLower w c)) = true)
    (hnotStartup : (["startup", "business", "company"].any
      (fun w => pyInLower w cBlog)) = false)
    (hblog : (["blog", "article", "write"].any
      (fun w => pyInLower w cBlog)) = true) :
    themeOf ents = "general" ∧
    themeOf (l₁ ++ e :: l₂) = e.text ∧
    classify_emotion key outcome = "neutral" ∧
    cluster_project c = "Startup Ideas" ∧
    cluster_project cBlog = "Blog Content" ∧
    cluster_project "We should build a startup around solar panels" =
      "Startup Ideas" ∧
    process_idea_with_nlp (fun _ => []) none anyOutcome
      [mkIdeaRow 101 "We should build a startup around solar panels"
        "manual" 7 "user_a"] 101
      "We should build a startup around solar panels" =
      [{ mkIdeaRow 101 "We should build a startup around solar panels"
          "manual" 7 "user_a" with
        project := some "Startup Ideas"
        theme := some "general"
        emotion := some "neutral" }] := by
  refine ⟨?_, ?_, ?_, ?_, ?_, by decide, ?_⟩
  · unfold themeOf
    rw [List.filter_eq_nil_iff.mpr (fun x hx => by simpa using hno x hx)]
    rfl
  · unfold themeOf
    rw [List.filter_append,
      List.filter_eq_nil_iff.mpr (fun x hx => by simpa using hfirst x hx)]
    have he' : e.label ∈ entCategories := by simpa using he
    simp [List.filter_cons, he']
  · unfold classify_emotion
    rcases hkey with h | h | h
    · rw [h]
      rfl
    · rw [h]
      cases hb : optTruthy key <;> rfl
    · rw [h]
      cases hb : optTruthy key <;> rfl
  · unfold cluster_project
    rw [if_pos hstartup]
  · unfold cluster_project
    rw [if_neg (by simp [hnotStartup]), if_pos hblog]
  · unfold process_idea_with_nlp
    have hcl : cluster_project
        "We should build a startup around solar panels" = "Startup Ideas" :=
      by decide
    rw [hcl]
    rfl

/-- Claim C6 (witness): concrete instantiation — a CARDINAL-only entity
list yields theme "general", an ORG entity after a DATE entity is picked
as theme, a failed classifier call yields "neutral", and the two keyword
buckets fire on concrete contents. -/
theorem enrichment_heuristics_witness :
    themeOf [⟨"42", "CARDINAL"⟩] = "general" ∧
    themeOf [⟨"today", "DATE"⟩, ⟨"Acme", "ORG"⟩, ⟨"Paris", "GPE"⟩] =
      "Acme" ∧
    classify_emotion (some "key") .httpError = "neutral" ∧
    cluster_project "my business plan" = "Startup Ideas" ∧
    cluster_project "write a post" = "Blog Content" ∧
    cluster_project "We should build a startup around solar panels" =
      "Startup Ideas" ∧
    process_idea_with_nlp (fun _ => []) none .exn
      [mkIdeaRow 101 "We should build a startup around solar panels"
        "manual" 7 "user_a"] 101
      "We should build a startup around solar panels" =
      [{ mkIdeaRow 101 "We should build a startup around solar panels"
          "manual" 7 "user_a" with
        project := some "Startup Ideas"
        theme := some "general"
        emotion := some "neutral" }] :=
  enrichment_heuristics [⟨"42", "CARDINAL"⟩] [⟨"today", "DATE"⟩]
    [⟨"Paris", "GPE"⟩] ⟨"Acme", "ORG"⟩ (some "key") .httpError .exn
    "my business plan" "write a post" (by decide) (by decide) (by decide)
    (by decide) (by decide) (by decide) (by decide)

/-- `pyLowerData` distributes over string append. -/
theorem pyLowerData_append (s t : String) :
    pyLowerData (s ++ t) = pyLowerData s ++ pyLowerData t := by
  simp [pyLowerData, String.data_append]

/-- A needle found in the lowered prefix is found in the whole
`pre ++ mid ++ suf` prompt, whatever the embedded idea content is. -/
theorem pyInLower_of_front (needle pre mid suf : String)
    (h : containsSub needle.data (pyLowerData pre) = true) :
    pyInLower needle (pre ++ mid ++ suf) = true := by
  unfold pyInLower
  rw [pyLowerData_append, pyLowerData_append]
  exact containsSub_append_right _ (containsSub_append_right _ h)

/-- The content prompt always triggers the first (`"content"`) fallback
branch: its fixed prefix contains the word "content". -/
theorem fallback_generation_promptContent (c : String) :
    fallback_generation (promptContent c) = fbContent := by
  unfold fallback_generation promptContent
  rw [if_pos (pyInLower_of_front _ _ _ _ (by decide))]

/-- The ip prompt ALSO triggers the first (`"content"`) fallback branch:
its fixed prefix "Transform this idea into intellectual property
content:" contains the substring "content", and that branch is tested
before the `"ip"` branch. -/
theorem fallback_generation_promptIp (c : String) :
    fallback_generation (promptIp c) = fbContent := by
  unfold fallback_generation promptIp
  rw [if_pos (pyInLower_of_front _ _ _ _ (by decide))]

/-- After `update_idea` writes `transformed_output`, the owner-scoped
re-read returns the updated row. -/
theorem get_after_update_transformed (db : List IdeaRow) (i : Nat)
    (uid t : String) (idea : IdeaRow)
    (hfind : db.find? (ideaMatches i uid) = some idea) :
    get_idea_by_id
      (update_idea db i uid { transformed_output := some t }).1 i uid =
      some (applyUpdate { transformed_output := some t } idea) := by
  have hp : ideaMatches i uid idea = true := List.find?_some hfind
  unfold update_idea
  rw [hfind]
  have hne : IdeaUpdate.isEmpty { transformed_output := some t } = false :=
    rfl
  rw [hne]
  simp only [Bool.false_eq_true, if_false]
  unfold get_idea_by_id
  rw [find?_map_guard db (ideaMatches i uid) _
    (fun r hr => by rw [ideaMatches_applyUpdate]; exact hr), hfind,
    Option.map_some']
  rw [if_pos hp]

/-- Claim C3 (counterexample): with no generation capability configured,
`transform(id, owner, "ip")` does NOT return the ip-branch fallback
string: because `_fallback_generation` tests `"content" in
prompt.lower()` first and the ip prompt contains "intellectual property
content", the content boilerplate is returned instead. -/
theorem transform_ip_fallback_counterexample :
    (transform_idea ⟨none, none⟩ (fun _ => .failure) (fun _ => .failure)
      [mkIdeaRow 1 "Solar panels" "manual" 0 "user_a"]
      ⟨1, "ip", "user_a"⟩).2 = .ok ⟨fbContent, 1, "ip"⟩ ∧
    fbContent ≠ fbIp := by
  constructor
  · rfl
  · decide

/-- Claim C3 (amended): when the idea loads and the kind is in the
closed set, transform never fails — for every configuration and every
provider outcome it returns `ok` — and with no capability configured it
returns the deterministic local template
`fallback_generation (promptFor kind content)`, which is always one of
the four fixed boilerplate strings; however the branch is selected by
substring match on the lowered prompt with "content" tested first, so
both the content kind AND the ip kind yield the content boilerplate
`fbContent` (not an ip-specific string). -/
theorem transform_local_fallback_amended (cfg : AIConfig)
    (oracleX oracleO : String → APIOutcome) (db : List IdeaRow)
    (req : TransformRequest) (idea : IdeaRow) (prompt : String)
    (hidea : get_idea_by_id db req.idea_id req.user_id = some idea)
    (hkind : req.output_type = "content" ∨ req.output_type = "ip" ∨
      req.output_type = "tasks") :
    (∃ t, (transform_idea cfg oracleX oracleO db req).2 =
      .ok ⟨t, req.idea_id, req.output_type⟩) ∧
    (transform_idea ⟨none, none⟩ oracleX oracleO db req).2 =
      .ok ⟨fallback_generation (promptFor req.output_type idea.content),
        req.idea_id, req.output_type⟩ ∧
    (req.output_type = "ip" →
      (transform_idea ⟨none, none⟩ oracleX oracleO db req).2 =
        .ok ⟨fbContent, req.idea_id, "ip"⟩) ∧
    (req.output_type = "content" →
      (transform_idea ⟨none, none⟩ oracleX oracleO db req).2 =
        .ok ⟨fbContent, req.idea_id, "content"⟩) ∧
    (fallback_generation prompt = fbContent ∨
      fallback_generation prompt = fbIp ∨
      fallback_generation prompt = fbTasks ∨
      fallback_generation prompt = fbOther) := by
  have hb : (req.output_type == "content" || req.output_type == "ip"
      || req.output_type == "tasks") = true := by
    rcases hkind with h | h | h <;> simp [h]
  have hnone : ∀ p : String, call_ai_api ⟨none, none⟩ oracleX oracleO p =
      fallback_generation p := by
    intro p
    rfl
  have heval : (transform_idea ⟨none, none⟩ oracleX oracleO db req).2 =
      .ok ⟨fallback_generation (promptFor req.output_type idea.content),
        req.idea_id, req.output_type⟩ := by
    simp only [transform_idea, hidea, hb, if_true, hnone]
  refine ⟨?_, heval, ?_, ?_, ?_⟩
  · refine ⟨call_ai_api cfg oracleX oracleO
      (promptFor req.output_type idea.content), ?_⟩
    simp only [transform_idea, hidea, hb, if_true]
  · intro hip
    rw [heval, hip]
    rw [show promptFor "ip" idea.content = promptIp idea.content from rfl,
      fallback_generation_promptIp]
  · intro hcontent
    rw [heval, hcontent]
    rw [show promptFor "content" idea.content =
        promptContent idea.content from rfl,
      fallback_generation_promptContent]
  · unfold fallback_generation
    split_ifs <;> tauto

/-- Claim C3 (witness): concrete no-capability ip transform returning
the content boilerplate. -/
theorem transform_local_fallback_amended_witness :
    (transform_idea ⟨none, none⟩ (fun _ => .success "remote")
      (fun _ => .success "remote")
      [mkIdeaRow 1 "Solar panels" "manual" 0 "user_a"]
      ⟨1, "ip", "user_a"⟩).2 = .ok ⟨fbContent, 1, "ip"⟩ :=
  (transform_local_fallback_amended ⟨none, none⟩
    (fun _ => .success "remote") (fun _ => .success "remote")
    [mkIdeaRow 1 "Solar panels" "manual" 0 "user_a"] ⟨1, "ip", "user_a"⟩
    (mkIdeaRow 1 "Solar panels" "manual" 0 "user_a") "" rfl
    (Or.inr (Or.inl rfl))).2.2.1 rfl

/-- Claim C5 (counterexample): the legacy monolith transform endpoint
does NOT reject the out-of-set kind "bogus": with no key it writes the
fallback string into `transformed_output` (first conjunct), and with a
key configured its result depends on the external call outcome, i.e.
the external call IS attempted for the unknown kind (second
conjunct). -/
theorem vault_transform_unknown_kind_counterexample :
    vault_transform none (fun _ => .exn)
      [mkIdeaRow 1 "Solar panels" "manual" 0 "user_a"]
      ⟨1, "bogus", "user_a"⟩ =
      ([{ mkIdeaRow 1 "Solar panels" "manual" 0 "user_a" with
          transformed_output := some "Generated bogus for: Solar panels" }],
        .ok "Generated bogus for: Solar panels") ∧
    (vault_transform (some "key") (fun _ => .ok (some "A"))
      [mkIdeaRow 1 "Solar panels" "manual" 0 "user_a"]
      ⟨1, "bogus", "user_a"⟩).2 = .ok "A" ∧
    (vault_transform (some "key") (fun _ => .ok (some "B"))
      [mkIdeaRow 1 "Solar panels" "manual" 0 "user_a"]
      ⟨1, "bogus", "user_a"⟩).2 = .ok "B" := by
  exact ⟨rfl, rfl, rfl⟩

/-- Claim C5 (amended): in the modular transform service every
`output_type` outside {content, ip, tasks} fails with the `ValueError`
"Unknown output type" before any provider call — the result is the same
for every provider oracle — and the table (hence the idea's
`transformed_output`) is left unchanged; the legacy monolith endpoint
instead maps unknown kinds to the content prompt and overwrites
`transformed_output` (see the counterexample). -/
theorem transform_unknown_kind_amended (cfg : AIConfig)
    (oracleX oracleO oracleX2 oracleO2 : String → APIOutcome)
    (db : List IdeaRow) (req : TransformRequest) (idea : IdeaRow)
    (hidea : get_idea_by_id db req.idea_id req.user_id = some idea)
    (hk : req.output_type ≠ "content" ∧ req.output_type ≠ "ip" ∧
      req.output_type ≠ "tasks") :
    transform_idea cfg oracleX oracleO db req =
      (db, .error ("Unknown output type: " ++ req.output_type)) ∧
    transform_idea cfg oracleX oracleO db req =
      transform_idea cfg oracleX2 oracleO2 db req := by
  have hb : (req.output_type == "content" || req.output_type == "ip"
      || req.output_type == "tasks") = false := by
    simp [hk.1, hk.2.1, hk.2.2]
  have h1 : transform_idea cfg oracleX oracleO db req =
      (db, .error ("Unknown output type: " ++ req.output_type)) := by
    simp only [transform_idea, hidea, hb, Bool.false_eq_true, if_false]
  have h2 : transform_idea cfg oracleX2 oracleO2 db req =
      (db, .error ("Unknown output type: " ++ req.output_type)) := by
    simp only [transform_idea, hidea, hb, Bool.false_eq_true, if_false]
  exact ⟨h1, h1.trans h2.symm⟩

/-- Claim C5 (witness): the modular service rejects the kind "bogus"
without touching the table, identically under two different provider
oracles. -/
theorem transform_unknown_kind_amended_witness :
    transform_idea ⟨some "key", none⟩ (fun _ => .success "A")
      (fun _ => .success "A")
      [mkIdeaRow 1 "Solar panels" "manual" 0 "user_a"]
      ⟨1, "bogus", "user_a"⟩ =
      ([mkIdeaRow 1 "Solar panels" "manual" 0 "user_a"],
        .error "Unknown output type: bogus") ∧
    transform_idea ⟨some "key", none⟩ (fun _ => .success "A")
      (fun _ => .success "A")
      [mkIdeaRow 1 "Solar panels" "manual" 0 "user_a"]
      ⟨1, "bogus", "user_a"⟩ =
    transform_idea ⟨some "key", none⟩ (fun _ => .success "B")
      (fun _ => .success "B")
      [mkIdeaRow 1 "Solar panels" "manual" 0 "user_a"]
      ⟨1, "bogus", "user_a"⟩ :=
  transform_unknown_kind_amended ⟨some "key", none⟩ (fun _ => .success "A")
    (fun _ => .success "A") (fun _ => .success "B") (fun _ => .success "B")
    [mkIdeaRow 1 "Solar panels" "manual" 0 "user_a"]
    ⟨1, "bogus", "user_a"⟩ (mkIdeaRow 1 "Solar panels" "manual" 0 "user_a")
    rfl (by decide)

/-- Claim C7: a successful transform persists the generated string into
the idea's `transformed_output` before returning: the response carries
`t = call_ai_api ...` and an immediate owner-scoped get on the resulting
table finds the row with `transformed_output = some t`. -/
theorem transform_persists_output (cfg : AIConfig)
    (oracleX oracleO : String → APIOutcome) (db : List IdeaRow)
    (req : TransformRequest) (idea : IdeaRow)
    (hidea : get_idea_by_id db req.idea_id req.user_id = some idea)
    (hkind : req.output_type = "content" ∨ req.output_type = "ip" ∨
      req.output_type = "tasks") :
    (transform_idea cfg oracleX oracleO db req).2 =
      .ok ⟨call_ai_api cfg oracleX oracleO
          (promptFor req.output_type idea.content),
        req.idea_id, req.output_type⟩ ∧
    (get_idea_by_id (transform_idea cfg oracleX oracleO db req).1
        req.idea_id req.user_id).map IdeaRow.transformed_output =
      some (some (call_ai_api cfg oracleX oracleO
        (promptFor req.output_type idea.content))) := by
  have hb : (req.output_type == "content" || req.output_type == "ip"
      || req.output_type == "tasks") = true := by
    rcases hkind with h | h | h <;> simp [h]
  have hfind : db.find? (ideaMatches req.idea_id req.user_id) = some idea :=
    hidea
  constructor
  · simp only [transform_idea, hidea, hb, if_true]
  · have h1 : (transform_idea cfg oracleX oracleO db req).1 =
        (update_idea db req.idea_id req.user_id
          { transformed_output := some (call_ai_api cfg oracleX oracleO
            (promptFor req.output_type idea.content)) }).1 := by
      simp only [transform_idea, hidea, hb, if_true]
    rw [h1, get_after_update_transformed db req.idea_id req.user_id _ idea
      hfind, Option.map_some']
    rfl

/-- Claim C7 (witness): concrete tasks transform followed by get shows
the persisted output equal to the returned value. -/
theorem transform_persists_output_witness :
    (transform_idea ⟨none, none⟩ (fun _ => .failure) (fun _ => .failure)
      [mkIdeaRow 1 "plant a garden" "manual" 0 "user_a"]
      ⟨1, "tasks", "user_a"⟩).2 =
      .ok ⟨call_ai_api ⟨none, none⟩ (fun _ => .failure) (fun _ => .failure)
          (promptFor "tasks" "plant a garden"), 1, "tasks"⟩ ∧
    (get_idea_by_id (transform_idea ⟨none, none⟩ (fun _ => .failure)
        (fun _ => .failure)
        [mkIdeaRow 1 "plant a garden" "manual" 0 "user_a"]
        ⟨1, "tasks", "user_a"⟩).1 1 "user_a").map
      IdeaRow.transformed_output =
      some (some (call_ai_api ⟨none, none⟩ (fun _ => .failure)
        (fun _ => .failure) (promptFor "tasks" "plant a garden"))) :=
  transform_persists_output ⟨none, none⟩ (fun _ => .failure)
    (fun _ => .failure) [mkIdeaRow 1 "plant a garden" "manual" 0 "user_a"]
    ⟨1, "tasks", "user_a"⟩ (mkIdeaRow 1 "plant a garden" "manual" 0 "user_a")
    rfl (Or.inr (Or.inr rfl))

/-- Claim C9: the transcribe route rejects every audio payload above the
10 MB ceiling and every payload not starting with a recognized WAV / MP3
/ OGG signature, with the fixed 400 message, and the result is identical
under any two transcription oracles — i.e. the rejection happens before
any transcription call is attempted. -/
theorem voice_validation_rejects
    (transcriber transcriber2 : List Nat → Except String String)
    (ct : String) (audio : List Nat)
    (hct : List.isPrefixOf "audio/".data ct.data = true)
    (hbad : audio.length > maxAudioSize ∨
      (∀ sig ∈ audioSignatures, sig.isPrefixOf audio = false)) :
    validate_audio_format audio = false ∧
    transcribe_route transcriber ct audio =
      .error "Invalid audio format or file too large" ∧
    transcribe_route transcriber ct audio =
      transcribe_route transcriber2 ct audio := by
  have hval : validate_audio_format audio = false := by
    rcases hbad with h | h
    · simp [validate_audio_format, h]
    · unfold validate_audio_format
      by_cases hsz : audio.length > maxAudioSize
      · rw [if_pos hsz]
      · rw [if_neg hsz]
        exact List.any_eq_false.mpr (fun sig hs => by simp [h sig hs])
  have hr : ∀ t : List Nat → Except String String,
      transcribe_route t ct audio =
        .error "Invalid audio format or file too large" := by
    intro t
    unfold transcribe_route
    rw [if_neg (by simp [hct]), if_pos (by simp [hval])]
  exact ⟨hval, hr transcriber, (hr transcriber).trans (hr transcriber2).symm⟩

/-- Claim C9 (witness): an 11 MB payload (11 * 1024 * 1024 zero bytes)
with an audio content type is rejected before transcription: the result
does not depend on the transcriber. -/
theorem voice_validation_rejects_witness :
    validate_audio_format (List.replicate 11534336 0) = false ∧
    transcribe_route (fun _ => .ok "a transcript") "audio/wav"
      (List.replicate 11534336 0) =
      .error "Invalid audio format or file too large" ∧
    transcribe_route (fun _ => .ok "a transcript") "audio/wav"
      (List.replicate 11534336 0) =
    transcribe_route (fun _ => .error "whisper failed") "audio/wav"
      (List.replicate 11534336 0) :=
  voice_validation_rejects (fun _ => .ok "a transcript")
    (fun _ => .error "whisper failed") "audio/wav"
    (List.replicate 11534336 0) (by decide)
    (Or.inl (by
      rw [List.length_replicate]
      decide))
